import Mathlib

/-!
Shallow embedding of the Bitski example backend dapp (`src/app/app.js`).

The app is a thin Express server over a web3 contract handle.  We model:
* `AppState` — the mutable fields of the `App` object after startup
  (`networkId`, `currentAccount`, contract address, cached `name`, `balance`);
* `Chain` — the outcome of each outbound JSON-RPC / contract call, supplied
  as an oracle (each field is the result the remote call would yield);
* each Express route handler as a pure function from the app state, the
  chain oracle and the request inputs to a JSON response, the list of
  contract calls it issues (its RPC trace), and the app state it leaves
  behind;
* the balance-refresh timer chain and the startup sequence.
-/

namespace ExampleDapp

/-- Json values, the shape of the bodies passed to Express `res.send`. -/
inductive Json where
  | str : String → Json
  | num : Nat → Json
  | arr : List Json → Json
  | obj : List (String × Json) → Json
  deriving Repr

/-- Mutable fields of the `App` object, as set by `App.start`. -/
structure AppState where
  networkId : Nat
  currentAccount : String
  contractAddress : String
  name : String
  balance : Nat
  deriving Repr, DecidableEq

/-- Outcome of `method.send(options, callback)` in the mint route: the JS
call can throw synchronously (the `try/catch` around it), or invoke the
node-style callback with an optional error and an optional transaction
hash. -/
inductive SendOutcome where
  | threw : String → SendOutcome
  | callback : Option String → Option String → SendOutcome
  deriving Repr, DecidableEq

/-- Oracle for the outbound contract / RPC calls a request may perform.
Errors are modelled by their `toString` rendering. -/
structure Chain where
  totalSupply : Except String String
  contractName : Except String String
  mintLimit : Except String String
  symbol : Except String String
  balanceOf : String → Except String Nat
  tokenOfOwnerByIndex : String → Nat → Except String String
  imageId : String → Except String String
  tokenURI : String → Except String String
  estimateGas : String → String → String → Except String Nat
  send : String → String → String → String → Nat → String → SendOutcome

/-- One contract call issued by a route handler, with its arguments.
`callEstimateGas to tokenId tokenURI` and
`callSend to tokenId tokenURI from gas gasPrice` record the mint method
arguments. -/
inductive RpcCall where
  | callTotalSupply : RpcCall
  | callName : RpcCall
  | callMintLimit : RpcCall
  | callSymbol : RpcCall
  | callBalanceOf : String → RpcCall
  | callTokenOfOwnerByIndex : String → Nat → RpcCall
  | callImageId : String → RpcCall
  | callTokenURI : String → RpcCall
  | callEstimateGas : String → String → String → RpcCall
  | callSend : String → String → String → String → Nat → String → RpcCall
  deriving Repr, DecidableEq

/-- Lower-case hex digit for a value below 16, as `web3.utils.randomHex`
produces. -/
def hexDigitChar (n : Nat) : Char :=
  if n < 10 then Char.ofNat (48 + n) else Char.ofNat (87 + n)

/-- Model of `web3.utils.randomHex(32)`: a 0x-prefixed string of exactly 64
lower-case hex digits encoding the 256-bit entropy (leading zeros kept). -/
def randomHex32 (entropy : Nat) : String :=
  "0x" ++ String.mk ((List.range 64).map (fun i => hexDigitChar (entropy / 16 ^ (63 - i) % 16)))

/-- Numeric value of one hex digit character. -/
def hexCharVal (c : Char) : Nat :=
  if 48 ≤ c.toNat ∧ c.toNat ≤ 57 then c.toNat - 48
  else if 97 ≤ c.toNat ∧ c.toNat ≤ 102 then c.toNat - 87
  else if 65 ≤ c.toNat ∧ c.toNat ≤ 70 then c.toNat - 55
  else 0

/-- Parse a 0x-prefixed hex string to a natural number. -/
def parseHexNat (s : String) : Nat :=
  (s.data.drop 2).foldl (fun acc c => acc * 16 + hexCharVal c) 0

/-- Accumulate the decimal digits of `n` (most significant first) onto
`acc`; `fuel` bounds the recursion and is always supplied large enough. -/
def natToDecAux (fuel : Nat) (n : Nat) (acc : List Char) : List Char :=
  match fuel with
  | 0 => acc
  | fuel + 1 =>
    if n = 0 then acc
    else natToDecAux fuel (n / 10) (Char.ofNat (48 + n % 10) :: acc)

/-- Decimal rendering of a natural number (BN `toString(10)`). -/
def natToDecString (n : Nat) : String :=
  if n = 0 then "0" else String.mk (natToDecAux (n + 1) n [])

/-- Model of `web3.utils.hexToNumberString`: hex string in, decimal string
out. -/
def hexToNumberString (s : String) : String :=
  natToDecString (parseHexNat s)

/-- The token-id validation of `GET /tokens/:tokenId`: the JS handler
rejects a missing/empty path parameter (falsy check) and any value not
matching the regex `^\d+$`, i.e. accepts exactly the non-empty all-digit
strings. -/
def isValidTokenId (s : String) : Bool :=
  !s.data.isEmpty && s.data.all Char.isDigit

/-- Decimal string rendering of the freshly generated mint token id
(`tokenIdString` in the mint route). -/
def mintTokenIdString (entropy : Nat) : String :=
  hexToNumberString (randomHex32 entropy)

/-- Token URI constructed by the mint route:
`baseUrl + "/tokens/" + tokenIdString`. -/
def mintTokenURI (apiUrl : String) (entropy : Nat) : String :=
  apiUrl ++ "/tokens/" ++ mintTokenIdString entropy

/-- Handler for `GET /`: reads the cached fields, no contract call. -/
def rootHandler (s : AppState) : Json × List RpcCall × AppState :=
  (Json.obj [("networkId", Json.num s.networkId),
             ("contractAddress", Json.str s.contractAddress),
             ("address", Json.str s.currentAccount),
             ("balance", Json.num s.balance),
             ("name", Json.str s.name)], [], s)

/-- Handler for `GET /abi`: sends the artifact JSON verbatim, no contract
call. -/
def abiHandler (artifacts : Json) (s : AppState) : Json × List RpcCall × AppState :=
  (artifacts, [], s)

/-- Handler for `GET /totalSupply`: sends the raw call result, or the raw
error on failure. -/
def totalSupplyHandler (s : AppState) (chain : Chain) : Json × List RpcCall × AppState :=
  match chain.totalSupply with
  | Except.ok v => (Json.str v, [RpcCall.callTotalSupply], s)
  | Except.error e => (Json.str e, [RpcCall.callTotalSupply], s)

/-- Handler for `GET /name`. -/
def nameHandler (s : AppState) (chain : Chain) : Json × List RpcCall × AppState :=
  match chain.contractName with
  | Except.ok v => (Json.obj [("name", Json.str v)], [RpcCall.callName], s)
  | Except.error e => (Json.str e, [RpcCall.callName], s)

/-- Handler for `GET /mintLimit`. -/
def mintLimitHandler (s : AppState) (chain : Chain) : Json × List RpcCall × AppState :=
  match chain.mintLimit with
  | Except.ok v => (Json.obj [("mintLimit", Json.str v)], [RpcCall.callMintLimit], s)
  | Except.error e => (Json.str e, [RpcCall.callMintLimit], s)

/-- Handler for `GET /symbol`. -/
def symbolHandler (s : AppState) (chain : Chain) : Json × List RpcCall × AppState :=
  match chain.symbol with
  | Except.ok v => (Json.obj [("symbol", Json.str v)], [RpcCall.callSymbol], s)
  | Except.error e => (Json.str e, [RpcCall.callSymbol], s)

/-- Join the per-index `tokenOfOwnerByIndex` calls the way `Promise.all`
does: the list of results if all succeed, otherwise the first rejection. -/
def collectTokens (chain : Chain) (owner : String) : List Nat → Except String (List String)
  | [] => Except.ok []
  | i :: rest =>
    match chain.tokenOfOwnerByIndex owner i with
    | Except.error e => Except.error e
    | Except.ok t =>
      match collectTokens chain owner rest with
      | Except.error e => Except.error e
      | Except.ok ts => Except.ok (t :: ts)

/-- Handler for `GET /:ownerAddress/tokens`: read `balanceOf`, then issue
one `tokenOfOwnerByIndex` call per index `0..balance-1` and join them; any
failure falls to the outer catch which sends the raw error. -/
def ownerTokensHandler (s : AppState) (chain : Chain) (owner : String) : Json × List RpcCall × AppState :=
  match chain.balanceOf owner with
  | Except.error e => (Json.str e, [RpcCall.callBalanceOf owner], s)
  | Except.ok n =>
    let calls := RpcCall.callBalanceOf owner ::
      (List.range n).map (fun i => RpcCall.callTokenOfOwnerByIndex owner i)
    match collectTokens chain owner (List.range n) with
    | Except.error e => (Json.str e, calls, s)
    | Except.ok tokens => (Json.obj [("tokens", Json.arr (tokens.map Json.str))], calls, s)

/-- Handler for `GET /:ownerAddress/balance`. -/
def ownerBalanceHandler (s : AppState) (chain : Chain) (owner : String) : Json × List RpcCall × AppState :=
  match chain.balanceOf owner with
  | Except.ok n => (Json.obj [("balance", Json.num n)], [RpcCall.callBalanceOf owner], s)
  | Except.error e => (Json.str e, [RpcCall.callBalanceOf owner], s)

/-- Handler for `GET /tokens/:tokenId` (token metadata): validate the path
parameter before any RPC; on a valid id, read `imageId` from the contract
and synthesize the metadata object (ERC-721 fields merged with the OpenSea
and RareBits extras).  The contract-call failure branch sends nothing
(`none`): the JS chain has no catch there. -/
def tokensMetadataHandler (s : AppState) (chain : Chain) (webUrl : String) (tokenId : String) :
    Option Json × List RpcCall × AppState :=
  if isValidTokenId tokenId then
    match chain.imageId tokenId with
    | Except.error _ => (none, [RpcCall.callImageId tokenId], s)
    | Except.ok imageIndex =>
      (some (Json.obj [("name", Json.str s.name),
                       ("description", Json.str "An example of an ERC-721 token"),
                       ("image", Json.str (webUrl ++ "/assets/character-" ++ imageIndex ++ ".png")),
                       ("external_url", Json.str webUrl),
                       ("image_url", Json.str (webUrl ++ "/assets/character-" ++ imageIndex ++ ".png")),
                       ("home_url", Json.str webUrl)]),
       [RpcCall.callImageId tokenId], s)
  else
    (some (Json.obj [("error", Json.obj [("message", Json.str "Invalid token id passed")])]), [], s)

/-- Handler for `GET /tokenURI/:tokenId`: forwards the raw path parameter
to the contract `tokenURI` call with no local validation. -/
def tokenURIHandler (s : AppState) (chain : Chain) (tokenId : String) : Json × List RpcCall × AppState :=
  match chain.tokenURI tokenId with
  | Except.ok uri => (Json.obj [("tokenURI", Json.str uri)], [RpcCall.callTokenURI tokenId], s)
  | Except.error e => (Json.obj [("error", Json.str e)], [RpcCall.callTokenURI tokenId], s)

/-- Handler for `POST /tokens/new`: generate a random 256-bit token id
(`entropy` supplies the randomness), build the token URI from the decimal
rendering, estimate gas for `mintWithTokenURI(to, tokenId, tokenURI)`, then
send it from the app account at the fixed gas price; the response carries
the transaction hash and the generated token id. -/
def tokensNewHandler (s : AppState) (chain : Chain) (toAddr : String) (entropy : Nat) (apiUrl : String) :
    Json × List RpcCall × AppState :=
  let tokenId := randomHex32 entropy
  let uri := mintTokenURI apiUrl entropy
  match chain.estimateGas toAddr tokenId uri with
  | Except.error e =>
    (Json.obj [("error", Json.str e)], [RpcCall.callEstimateGas toAddr tokenId uri], s)
  | Except.ok gas =>
    let calls := [RpcCall.callEstimateGas toAddr tokenId uri,
                  RpcCall.callSend toAddr tokenId uri s.currentAccount gas "1100000000"]
    match chain.send toAddr tokenId uri s.currentAccount gas "1100000000" with
    | SendOutcome.threw e => (Json.obj [("error", Json.str e)], calls, s)
    | SendOutcome.callback (some e) _ => (Json.obj [("error", Json.str e)], calls, s)
    | SendOutcome.callback none (some h) =>
      (Json.obj [("transactionHash", Json.str h), ("tokenId", Json.str tokenId)], calls, s)
    | SendOutcome.callback none none =>
      (Json.obj [("error", Json.str "The transaction hash could not be found.")], calls, s)

/-- Transfer event payload (`event.returnValues`). -/
structure TransferEvent where
  fromAddr : String
  toAddr : String
  tokenId : String

/-- Callback of `watchTransferEvents`: logs a line, touches no app state. -/
def transferEventCallback (s : AppState) (ev : TransferEvent) : AppState × String :=
  (s, "Token " ++ ev.tokenId ++ " was transferred from " ++ ev.fromAddr ++ " to " ++ ev.toAddr)

/-- One tick of the balance-refresh loop: on success the queried balance
replaces the stored one; on failure the error is only logged and the state
is untouched. -/
def updateBalanceTick (s : AppState) (query : Except String Nat) : AppState :=
  match query with
  | Except.ok b => { s with balance := b }
  | Except.error _ => s

/-- Refresh period of the balance loop, in seconds. -/
def refreshPeriod : Nat := 60

/-- Start time of the k-th balance query of the refresh loop.
`updateBalance` is invoked at time 0 during startup and arms a timeout for
one period later; when the timeout fires it starts the balance query and
immediately re-invokes `updateBalance` (it does not wait for the query
promise), so tick k+1 fires exactly one period after tick k whatever the
query durations are. -/
def tickStart : Nat → Nat
  | 0 => refreshPeriod
  | k + 1 => tickStart k + refreshPeriod

/-- The k-th balance query is in flight at time `t`, given the duration
`dur k` of each query. -/
def inFlight (dur : Nat → Nat) (k t : Nat) : Prop :=
  tickStart k ≤ t ∧ t ≤ tickStart k + dur k

instance (dur : Nat → Nat) (k t : Nat) : Decidable (inFlight dur k t) := by
  unfold inFlight; infer_instance

/-- Oracle for the RPC calls performed by `App.start`.  The field
`deployedAddress` is the contract-resolution step: `App.start` awaits
`new Contract(web3, networkId, artifacts).deployed()`.  Modelled from the
spec: the file `src/app/contract.js` is not part of the sources; per the
spec, resolution looks up the deployed address recorded for the resolved
network id and fails when the artifact has no deployment for it. -/
structure ChainStart where
  getAccounts : Except String (List String)
  getBalance : String → Except String Nat
  getNetworkId : Except String Nat
  deployedAddress : Nat → Option String
  contractName : Except String String

/-- Result of `App.start`: either the server is created with the resolved
state, or the catch-all logged the error and called `process.exit(1)`. -/
inductive StartResult where
  | started : AppState → StartResult
  | exited : StartResult
  deriving Repr, DecidableEq

/-- Model of `App.start`: every awaited step runs inside one `try` block
whose `catch` logs and exits the process, so any failure (including the
`name()` cache warm-up) aborts startup. -/
def start (c : ChainStart) : StartResult :=
  match c.getAccounts with
  | Except.error _ => StartResult.exited
  | Except.ok accounts =>
    match accounts with
    | [] => StartResult.exited
    | a :: _ =>
      match c.getBalance a with
      | Except.error _ => StartResult.exited
      | Except.ok bal =>
        match c.getNetworkId with
        | Except.error _ => StartResult.exited
        | Except.ok nid =>
          match c.deployedAddress nid with
          | none => StartResult.exited
          | some addr =>
            match c.contractName with
            | Except.error _ => StartResult.exited
            | Except.ok nm =>
              StartResult.started
                { networkId := nid, currentAccount := a, contractAddress := addr,
                  name := nm, balance := bal }

/-- Concrete app state used to evaluate the handlers on explicit inputs. -/
def wState : AppState :=
  { networkId := 4, currentAccount := "0xapp", contractAddress := "0xcontract",
    name := "ExampleToken", balance := 1000 }

/-- Concrete chain oracle on which every call succeeds. -/
def okChain : Chain where
  totalSupply := Except.ok "7"
  contractName := Except.ok "ExampleToken"
  mintLimit := Except.ok "5"
  symbol := Except.ok "EXT"
  balanceOf := fun _ => Except.ok 2
  tokenOfOwnerByIndex := fun _ i => Except.ok (natToDecString i)
  imageId := fun _ => Except.ok "3"
  tokenURI := fun _ => Except.ok "https://api/tokens/255"
  estimateGas := fun _ _ _ => Except.ok 21000
  send := fun _ _ _ _ _ _ => SendOutcome.callback none (some "0xhash1")

/-- Concrete chain oracle whose gas estimation rejects. -/
def gasFailChain : Chain :=
  { okChain with estimateGas := fun _ _ _ => Except.error "Error: gas estimation failed" }

/-- Concrete chain oracle whose tokenURI call rejects. -/
def uriFailChain : Chain :=
  { okChain with tokenURI := fun _ => Except.error "Error: execution reverted" }

/-- Concrete startup oracle on which every startup step succeeds. -/
def okStart : ChainStart where
  getAccounts := Except.ok ["0xapp"]
  getBalance := fun _ => Except.ok 1000
  getNetworkId := Except.ok 4
  deployedAddress := fun nid => if nid = 4 then some "0xcontract" else none
  contractName := Except.ok "ExampleToken"

/-- Concrete startup oracle on which everything succeeds except the
`name()` cache warm-up. -/
def nameFailStart : ChainStart :=
  { okStart with contractName := Except.error "Error: name call reverted" }

/-- Duration assignment making every balance query take 70 seconds, longer
than the 60-second refresh period. -/
def overlapDur : Nat → Nat := fun _ => 70

/-- Duration assignment making every balance query take 10 seconds. -/
def fastDur : Nat → Nat := fun _ => 10

/-- Characters pushed by the decimal renderer are digit characters. -/
theorem decDigitChar_isDigit : ∀ d, d < 10 → (Char.ofNat (48 + d)).isDigit = true := by decide

/-- Every character produced by `natToDecAux` on a digit accumulator is a
digit. -/
theorem natToDecAux_digits (fuel : Nat) : ∀ (n : Nat) (acc : List Char),
    (∀ c ∈ acc, c.isDigit = true) → ∀ c ∈ natToDecAux fuel n acc, c.isDigit = true := by
  induction fuel with
  | zero => intro n acc hacc c hc; exact hacc c hc
  | succ fuel ih =>
    intro n acc hacc c hc
    unfold natToDecAux at hc
    by_cases h : n = 0
    · rw [if_pos h] at hc
      exact hacc c hc
    · rw [if_neg h] at hc
      refine ih (n / 10) _ ?_ c hc
      intro c' hc'
      rcases List.mem_cons.mp hc' with h1 | h2
      · rw [h1]; exact decDigitChar_isDigit (n % 10) (Nat.mod_lt n (by norm_num))
      · exact hacc c' h2

/-- The decimal renderer only prepends characters. -/
theorem natToDecAux_length (fuel : Nat) : ∀ (n : Nat) (acc : List Char),
    acc.length ≤ (natToDecAux fuel n acc).length := by
  induction fuel with
  | zero => intro n acc; exact le_refl _
  | succ fuel ih =>
    intro n acc
    unfold natToDecAux
    by_cases h : n = 0
    · rw [if_pos h]
    · rw [if_neg h]
      calc acc.length ≤ (Char.ofNat (48 + n % 10) :: acc).length := by simp
        _ ≤ _ := ih (n / 10) _

/-- The decimal rendering of any natural number is a non-empty all-digit
string, i.e. passes the token-id validation. -/
theorem natToDecString_valid (n : Nat) : isValidTokenId (natToDecString n) = true := by
  unfold natToDecString
  by_cases h : n = 0
  · rw [if_pos h]; decide
  · rw [if_neg h]
    have hdig : ∀ c ∈ natToDecAux (n + 1) n [], c.isDigit = true :=
      natToDecAux_digits (n + 1) n [] (by intro c hc; simp at hc)
    have hne : natToDecAux (n + 1) n [] ≠ [] := by
      have h1 : natToDecAux (n + 1) n [] =
          natToDecAux n (n / 10) [Char.ofNat (48 + n % 10)] := by
        conv_lhs => rw [natToDecAux]
        rw [if_neg h]
      have h2 := natToDecAux_length n (n / 10) [Char.ofNat (48 + n % 10)]
      intro hcontra
      rw [h1] at hcontra
      rw [hcontra] at h2
      simp at h2
    unfold isValidTokenId
    rw [Bool.and_eq_true]
    constructor
    · simp [hne]
    · rw [List.all_eq_true]
      exact hdig

/-- If every indexed read succeeds, the `Promise.all` join returns exactly
the mapped list. -/
theorem collectTokens_ok (chain : Chain) (owner : String) (ts : Nat → String) :
    ∀ l : List Nat, (∀ i ∈ l, chain.tokenOfOwnerByIndex owner i = Except.ok (ts i)) →
      collectTokens chain owner l = Except.ok (l.map ts) := by
  intro l
  induction l with
  | nil => intro _; rfl
  | cons i rest ih =>
    intro h
    unfold collectTokens
    rw [h i (List.mem_cons_self i rest), ih (fun j hj => h j (List.mem_cons_of_mem i hj))]
    rfl

/-- Closed form of the tick schedule: ticks fire at a fixed cadence. -/
theorem tickStart_closed (k : Nat) : tickStart k = refreshPeriod * (k + 1) := by
  induction k with
  | zero => simp [tickStart]
  | succ k ih =>
    unfold tickStart
    rw [ih]
    ring

/-- C8: on a balance-refresh tick whose query fails, the stored balance
(and the whole state) is unchanged; on a tick whose query succeeds, the
stored balance is replaced by the query result. -/
theorem c8_balance_tick (s : AppState) (e : String) (b : Nat) :
    updateBalanceTick s (Except.error e) = s ∧
    updateBalanceTick s (Except.ok b) = { s with balance := b } :=
  ⟨rfl, rfl⟩

/-- C6: any token-id path input that is not a non-empty digit string makes
`GET /tokens/:tokenId` answer the fixed validation error and issue no
contract call. -/
theorem c6_invalid_tokenId (s : AppState) (chain : Chain) (webUrl tid : String)
    (h : isValidTokenId tid = false) :
    (tokensMetadataHandler s chain webUrl tid).1 =
      some (Json.obj [("error", Json.obj [("message", Json.str "Invalid token id passed")])]) ∧
    (tokensMetadataHandler s chain webUrl tid).2.1 = [] := by
  unfold tokensMetadataHandler
  rw [h]
  exact ⟨rfl, rfl⟩

/-- Witness for C6 at the concrete input "abc". -/
theorem c6_invalid_tokenId_witness :
    isValidTokenId "abc" = false ∧
    (tokensMetadataHandler wState okChain "https://web" "abc").1 =
      some (Json.obj [("error", Json.obj [("message", Json.str "Invalid token id passed")])]) ∧
    (tokensMetadataHandler wState okChain "https://web" "abc").2.1 = [] :=
  ⟨by decide,
   (c6_invalid_tokenId wState okChain "https://web" "abc" (by decide)).1,
   (c6_invalid_tokenId wState okChain "https://web" "abc" (by decide)).2⟩

/-- C10: `GET /tokenURI/:tokenId` performs no local validation: for every
path input it issues exactly the `tokenURI` contract call on the raw
string, and it answers an error body exactly when that call fails,
otherwise the tokenURI body. -/
theorem c10_tokenURI_forwarding (s : AppState) (chain : Chain) (tid : String) :
    (tokenURIHandler s chain tid).2.1 = [RpcCall.callTokenURI tid] ∧
    (∀ u, chain.tokenURI tid = Except.ok u →
      (tokenURIHandler s chain tid).1 = Json.obj [("tokenURI", Json.str u)]) ∧
    (∀ e, chain.tokenURI tid = Except.error e →
      (tokenURIHandler s chain tid).1 = Json.obj [("error", Json.str e)]) := by
  cases h : chain.tokenURI tid with
  | ok u => simp [tokenURIHandler, h]
  | error e => simp [tokenURIHandler, h]

/-- Witness for C10 at the non-numeric concrete input "0xzz", on a chain
where the call succeeds and one where it fails. -/
theorem c10_tokenURI_forwarding_witness :
    (tokenURIHandler wState okChain "0xzz").2.1 = [RpcCall.callTokenURI "0xzz"] ∧
    (tokenURIHandler wState okChain "0xzz").1 =
      Json.obj [("tokenURI", Json.str "https://api/tokens/255")] ∧
    (tokenURIHandler wState uriFailChain "0xzz").1 =
      Json.obj [("error", Json.str "Error: execution reverted")] :=
  ⟨(c10_tokenURI_forwarding wState okChain "0xzz").1,
   (c10_tokenURI_forwarding wState okChain "0xzz").2.1 "https://api/tokens/255" rfl,
   (c10_tokenURI_forwarding wState uriFailChain "0xzz").2.2 "Error: execution reverted" rfl⟩

/-- C4: when gas estimation rejects, `POST /tokens/new` answers exactly the
stringified error, never invokes `method.send`, and leaves the state
unchanged. -/
theorem c4_gas_estimation_failure (s : AppState) (chain : Chain) (toAddr : String) (ent : Nat)
    (apiUrl err : String)
    (h : chain.estimateGas toAddr (randomHex32 ent) (mintTokenURI apiUrl ent) = Except.error err) :
    (tokensNewHandler s chain toAddr ent apiUrl).1 = Json.obj [("error", Json.str err)] ∧
    (tokensNewHandler s chain toAddr ent apiUrl).2.1 =
      [RpcCall.callEstimateGas toAddr (randomHex32 ent) (mintTokenURI apiUrl ent)] ∧
    (∀ a b c d g p, RpcCall.callSend a b c d g p ∉ (tokensNewHandler s chain toAddr ent apiUrl).2.1) ∧
    (tokensNewHandler s chain toAddr ent apiUrl).2.2 = s := by
  simp [tokensNewHandler, h]

/-- Witness for C4 at a concrete chain whose gas estimation rejects. -/
theorem c4_gas_estimation_failure_witness :
    gasFailChain.estimateGas "0xto" (randomHex32 255) (mintTokenURI "https://api" 255) =
      Except.error "Error: gas estimation failed" ∧
    (tokensNewHandler wState gasFailChain "0xto" 255 "https://api").1 =
      Json.obj [("error", Json.str "Error: gas estimation failed")] :=
  ⟨rfl,
   (c4_gas_estimation_failure wState gasFailChain "0xto" 255 "https://api"
     "Error: gas estimation failed" rfl).1⟩

/-- C5: when `balanceOf(owner)` returns n and each indexed read succeeds,
`GET /:ownerAddress/tokens` answers a tokens array of exactly n elements
whose i-th element is `tokenOfOwnerByIndex(owner, i)`. -/
theorem c5_owner_tokens (s : AppState) (chain : Chain) (owner : String) (n : Nat) (ts : Nat → String)
    (hbal : chain.balanceOf owner = Except.ok n)
    (htok : ∀ i, i < n → chain.tokenOfOwnerByIndex owner i = Except.ok (ts i)) :
    (ownerTokensHandler s chain owner).1 =
      Json.obj [("tokens", Json.arr ((List.range n).map (fun i => Json.str (ts i))))] ∧
    ((List.range n).map (fun i => Json.str (ts i))).length = n := by
  have hcoll : collectTokens chain owner (List.range n) = Except.ok ((List.range n).map ts) :=
    collectTokens_ok chain owner ts (List.range n) (fun i hi => htok i (List.mem_range.mp hi))
  constructor
  · simp [ownerTokensHandler, hbal, hcoll, List.map_map]
  · simp

/-- Witness for C5 at a concrete owner with balance 2. -/
theorem c5_owner_tokens_witness :
    okChain.balanceOf "0xowner" = Except.ok 2 ∧
    (ownerTokensHandler wState okChain "0xowner").1 =
      Json.obj [("tokens", Json.arr [Json.str "0", Json.str "1"])] :=
  ⟨rfl, by
    have h := (c5_owner_tokens wState okChain "0xowner" 2 (fun i => natToDecString i) rfl
      (fun i _ => rfl)).1
    rw [h]
    rfl⟩

/-- C7: the decimal rendering of every generated 256-bit token id is a
non-empty digit string (so it passes the token-id path validation
verbatim), and it is exactly the value the mint handler embeds in the
constructed token URI it passes to the contract. -/
theorem c7_mint_roundtrip (s : AppState) (chain : Chain) (toAddr : String) (ent : Nat)
    (apiUrl : String) :
    isValidTokenId (mintTokenIdString ent) = true ∧
    mintTokenURI apiUrl ent = apiUrl ++ "/tokens/" ++ mintTokenIdString ent ∧
    (tokensNewHandler s chain toAddr ent apiUrl).2.1.head? =
      some (RpcCall.callEstimateGas toAddr (randomHex32 ent) (mintTokenURI apiUrl ent)) := by
  refine ⟨natToDecString_valid _, rfl, ?_⟩
  cases hg : chain.estimateGas toAddr (randomHex32 ent) (mintTokenURI apiUrl ent) with
  | error e => simp [tokensNewHandler, hg]
  | ok gas =>
    cases hs : chain.send toAddr (randomHex32 ent) (mintTokenURI apiUrl ent)
        s.currentAccount gas "1100000000" with
    | threw e => simp [tokensNewHandler, hg, hs]
    | callback oe oh =>
      cases oe with
      | some e => simp [tokensNewHandler, hg, hs]
      | none =>
        cases oh with
        | some h => simp [tokensNewHandler, hg, hs]
        | none => simp [tokensNewHandler, hg, hs]

/-- Counterexample to C1: on a fully successful concrete mint, the
`tokenId` field of the response is the 0x-prefixed hex string, not the
decimal rendering ("255" here), and it fails the decimal-string check. -/
theorem c1_counterexample :
    (tokensNewHandler wState okChain "0xto" 255 "https://api").1 =
      Json.obj [("transactionHash", Json.str "0xhash1"), ("tokenId", Json.str (randomHex32 255))] ∧
    randomHex32 255 = "0x00000000000000000000000000000000000000000000000000000000000000ff" ∧
    mintTokenIdString 255 = "255" ∧
    isValidTokenId (randomHex32 255) = false := by
  refine ⟨rfl, by decide, by decide, by decide⟩

/-- C1 (amended): for every successful POST /tokens/new request, the
response body is the transaction hash together with the generated token id
as the 0x-prefixed 32-byte hex string (the decimal rendering of the id
appears only inside the token URI, not in the response). -/
theorem c1_mint_success_response (s : AppState) (chain : Chain) (toAddr : String) (ent : Nat)
    (apiUrl : String) (gas : Nat) (txHash : String)
    (hg : chain.estimateGas toAddr (randomHex32 ent) (mintTokenURI apiUrl ent) = Except.ok gas)
    (hs : chain.send toAddr (randomHex32 ent) (mintTokenURI apiUrl ent)
      s.currentAccount gas "1100000000" = SendOutcome.callback none (some txHash)) :
    (tokensNewHandler s chain toAddr ent apiUrl).1 =
      Json.obj [("transactionHash", Json.str txHash), ("tokenId", Json.str (randomHex32 ent))] := by
  simp [tokensNewHandler, hg, hs]

/-- Witness for the amended C1 at a concrete successful chain. -/
theorem c1_mint_success_response_witness :
    (tokensNewHandler wState okChain "0xto" 255 "https://api").1 =
      Json.obj [("transactionHash", Json.str "0xhash1"), ("tokenId", Json.str (randomHex32 255))] :=
  c1_mint_success_response wState okChain "0xto" 255 "https://api" 21000 "0xhash1" rfl rfl

/-- Counterexample to C2: the claim that at most one balance query is ever
in flight fails when a query outlasts the 60-second period: with every
query taking 70 seconds, queries 0 and 1 are both in flight at t = 125. -/
theorem c2_counterexample :
    ¬ (∀ (dur : Nat → Nat) (t j k : Nat), inFlight dur j t → inFlight dur k t → j = k) := by
  intro hcl
  have h01 := hcl overlapDur 125 0 1 (by constructor <;> decide) (by constructor <;> decide)
  exact absurd h01 (by decide)

/-- C2 (amended): the refresh loop re-arms the timer as soon as a tick
fires, not after its query completes, so ticks fire at a fixed 60-second
cadence; queries therefore never overlap provided every query finishes
within the period. -/
theorem c2_no_overlap_when_fast (dur : Nat → Nat) (hdur : ∀ i, dur i < refreshPeriod)
    (t j k : Nat) (hj : inFlight dur j t) (hk : inFlight dur k t) : j = k := by
  have cj := tickStart_closed j
  have ck := tickStart_closed k
  have hdj := hdur j
  have hdk := hdur k
  obtain ⟨hj1, hj2⟩ := hj
  obtain ⟨hk1, hk2⟩ := hk
  rw [cj] at hj1 hj2
  rw [ck] at hk1 hk2
  unfold refreshPeriod at hdj hdk hj1 hj2 hk1 hk2
  omega

/-- Witness for the amended C2: with 10-second queries, the query in
flight at t = 65 is unique. -/
theorem c2_no_overlap_when_fast_witness :
    inFlight fastDur 0 65 ∧ (0 : Nat) = 0 :=
  ⟨by constructor <;> decide,
   c2_no_overlap_when_fast fastDur (fun _ => show (10 : Nat) < 60 by decide) 65 0 0
     (by constructor <;> decide) (by constructor <;> decide)⟩

/-- Counterexample to C3: on a concrete startup oracle where every step
succeeds except the `name()` cache warm-up, `App.start` does not succeed
with an empty cache — it exits the process. -/
theorem c3_counterexample :
    nameFailStart.getAccounts = Except.ok ["0xapp"] ∧
    nameFailStart.getBalance "0xapp" = Except.ok 1000 ∧
    nameFailStart.getNetworkId = Except.ok 4 ∧
    nameFailStart.deployedAddress 4 = some "0xcontract" ∧
    nameFailStart.contractName = Except.error "Error: name call reverted" ∧
    start nameFailStart = StartResult.exited :=
  ⟨rfl, rfl, rfl, by decide, rfl, rfl⟩

/-- C3 (amended): the `name()` cache warm-up runs inside the startup
try/catch, so its failure is fatal like any other startup failure: the
error is logged and the process exits non-zero; startup never completes
with an empty name cache. -/
theorem c3_name_failure_fatal (c : ChainStart) (e : String)
    (h : c.contractName = Except.error e) :
    start c = StartResult.exited := by
  unfold start
  simp only [h]
  repeat' split
  all_goals rfl

/-- Witness for the amended C3 at the concrete startup oracle. -/
theorem c3_name_failure_fatal_witness :
    nameFailStart.contractName = Except.error "Error: name call reverted" ∧
    start nameFailStart = StartResult.exited :=
  ⟨rfl, c3_name_failure_fatal nameFailStart "Error: name call reverted" rfl⟩

/-- C9: after startup, every route handler and the transfer-event callback
return the app state unchanged, and a balance-refresh tick changes at most
the balance field (network id, account, contract address and cached name
are preserved). -/
theorem c9_state_readonly_after_startup (s : AppState) (chain : Chain) (artifacts : Json)
    (owner tid toAddr webUrl apiUrl : String) (ent : Nat) (ev : TransferEvent)
    (q : Except String Nat) :
    (rootHandler s).2.2 = s ∧
    (abiHandler artifacts s).2.2 = s ∧
    (totalSupplyHandler s chain).2.2 = s ∧
    (nameHandler s chain).2.2 = s ∧
    (mintLimitHandler s chain).2.2 = s ∧
    (symbolHandler s chain).2.2 = s ∧
    (ownerTokensHandler s chain owner).2.2 = s ∧
    (ownerBalanceHandler s chain owner).2.2 = s ∧
    (tokensMetadataHandler s chain webUrl tid).2.2 = s ∧
    (tokenURIHandler s chain tid).2.2 = s ∧
    (tokensNewHandler s chain toAddr ent apiUrl).2.2 = s ∧
    (transferEventCallback s ev).1 = s ∧
    (updateBalanceTick s q).networkId = s.networkId ∧
    (updateBalanceTick s q).currentAccount = s.currentAccount ∧
    (updateBalanceTick s q).contractAddress = s.contractAddress ∧
    (updateBalanceTick s q).name = s.name := by
  refine ⟨rfl, rfl, ?_, ?_, ?_, ?_, ?_, ?_, ?_, ?_, ?_, rfl, ?_, ?_, ?_, ?_⟩
  · unfold totalSupplyHandler; split <;> rfl
  · unfold nameHandler; split <;> rfl
  · unfold mintLimitHandler; split <;> rfl
  · unfold symbolHandler; split <;> rfl
  · unfold ownerTokensHandler
    split
    · rfl
    · split <;> rfl
  · unfold ownerBalanceHandler; split <;> rfl
  · unfold tokensMetadataHandler
    split
    · split <;> rfl
    · rfl
  · unfold tokenURIHandler; split <;> rfl
  · simp only [tokensNewHandler]
    split
    · rfl
    · split <;> rfl
  · cases q <;> rfl
  · cases q <;> rfl
  · cases q <;> rfl
  · cases q <;> rfl

end ExampleDapp
